import Mathlib

set_option maxRecDepth 8192

/-!
Verification of the simple-mermaid diagram-embedding crate (src/lib.rs).

The crate exposes a declarative textual-expansion rule `mermaid!` that, given
a file path and zero, one or two keyword modifiers, dispatches to
`_mermaid_inner!` with a resolved (alignment, style) pair; `_mermaid_inner!`
concatenates a styled container, the file content surrounded by newlines,
and a fixed bootstrap script; `_mermaid_background!` maps the style keyword
to a CSS fragment.  We embed the dispatch table as a function on token
lists, and the two inner rules as string-building functions, and prove the
testable properties stated by the specification about them.
-/

namespace SimpleMermaid

/-- Horizontal alignment of the rendered diagram (tokens `left`, `right`,
`center` of src/lib.rs). -/
inductive Alignment where
  | left
  | right
  | center
deriving DecidableEq, Repr

/-- Frame style of the rendered diagram (tokens `framed`, `transparent` of
src/lib.rs). -/
inductive FrameStyle where
  | framed
  | transparent
deriving DecidableEq, Repr

/-- The resolved configuration pair produced by the argument-normalizing
rules of `mermaid!`. -/
abbrev RenderConfig := Alignment × FrameStyle

/-- A keyword token appearing after the file path in a `mermaid!` call.
`other s` stands for any identifier outside the recognized vocabulary. -/
inductive Token where
  | left
  | right
  | center
  | framed
  | transparent
  | other (s : String)
deriving DecidableEq, Repr

/-- Is this token one of the three alignment keywords? -/
def Token.isAlignment : Token → Bool
  | Token.left => true
  | Token.right => true
  | Token.center => true
  | _ => false

/-- Is this token one of the two style keywords? -/
def Token.isStyle : Token → Bool
  | Token.framed => true
  | Token.transparent => true
  | _ => false

/-- Is this token in the recognized vocabulary
`{left, right, center, framed, transparent}`? -/
def Token.inVocabulary (t : Token) : Bool := t.isAlignment || t.isStyle

/-- The token corresponding to an alignment value. -/
def Alignment.token : Alignment → Token
  | Alignment.left => Token.left
  | Alignment.right => Token.right
  | Alignment.center => Token.center

/-- The eleven arms of `mermaid!` (src/lib.rs lines 114-126): each arm lists
the literal token sequence it accepts and the (alignment, style) pair it
forwards to `_mermaid_inner!`; a token sequence matching no arm is a
compile-time failure, embedded here as `none`. -/
def mermaidResolve : List Token → Option RenderConfig
  | [] => some (Alignment.center, FrameStyle.transparent)
  | [Token.left, Token.framed] => some (Alignment.left, FrameStyle.framed)
  | [Token.framed, Token.left] => some (Alignment.left, FrameStyle.framed)
  | [Token.center, Token.framed] => some (Alignment.center, FrameStyle.framed)
  | [Token.framed, Token.center] => some (Alignment.center, FrameStyle.framed)
  | [Token.right, Token.framed] => some (Alignment.right, FrameStyle.framed)
  | [Token.framed, Token.right] => some (Alignment.right, FrameStyle.framed)
  | [Token.framed] => some (Alignment.center, FrameStyle.framed)
  | [Token.left] => some (Alignment.left, FrameStyle.transparent)
  | [Token.right] => some (Alignment.right, FrameStyle.transparent)
  | [Token.center] => some (Alignment.center, FrameStyle.transparent)
  | _ => none

/-- The textual name of an alignment, as produced by `stringify!($pos)` in
`_mermaid_inner!` (src/lib.rs line 133). -/
def Alignment.name : Alignment → String
  | Alignment.left => "left"
  | Alignment.right => "right"
  | Alignment.center => "center"

/-- The `_mermaid_background!` rule (src/lib.rs lines 146-149): the CSS
fragment contributed by the style token. -/
def mermaidBackground : FrameStyle → String
  | FrameStyle.framed => ""
  | FrameStyle.transparent => "background: transparent;"

/-- The fixed bootstrap script emitted at the end of every expansion of
`_mermaid_inner!` (src/lib.rs lines 135-141). -/
def bootstrapFragment : String :=
  "<script type=\"module\">"
    ++ "import mermaid from \"https://cdn.jsdelivr.net/npm/mermaid@10/dist/mermaid.esm.min.mjs\";"
    ++ "var doc_theme = localStorage.getItem(\"rustdoc-theme\");"
    ++ "if (doc_theme === \"dark\" || doc_theme === \"ayu\") mermaid.initialize(\x7btheme: \"dark\"\x7d);"
    ++ "</script>"

/-- The `_mermaid_inner!` rule (src/lib.rs lines 130-142): the full output
string for a resolved configuration and the content of the referenced file
(`include_str!($file)` is embedded as the `content` argument). -/
def mermaidInner (pos : Alignment) (style : FrameStyle) (content : String) : String :=
  "<pre class=\"mermaid\" style=\"text-align:" ++ pos.name ++ ";" ++ mermaidBackground style ++ "\">\n"
    ++ content ++ "\n"
    ++ "</pre>"
    ++ bootstrapFragment

/-- The whole `mermaid!` call: resolve the modifier tokens and, when an arm
matches, render the file content with the resolved configuration. -/
def mermaid (content : String) (mods : List Token) : Option String :=
  (mermaidResolve mods).map (fun c => mermaidInner c.1 c.2 content)

/-- The dark-theme condition of the emitted bootstrap script (src/lib.rs
line 139): the persisted theme value triggers dark initialization exactly
when it is `dark` or `ayu`. -/
def darkThemeCheck (doc_theme : String) : Bool :=
  doc_theme == "dark" || doc_theme == "ayu"

/-- Any token list accepted by some arm of `mermaid!` is one of the eleven
listed literal sequences. -/
theorem mermaidResolve_eq_some_shapes (ts : List Token) (c : RenderConfig)
    (h : mermaidResolve ts = some c) :
    ts = [] ∨ ts = [Token.left] ∨ ts = [Token.right] ∨ ts = [Token.center] ∨
      ts = [Token.framed] ∨ ts = [Token.left, Token.framed] ∨
      ts = [Token.framed, Token.left] ∨ ts = [Token.center, Token.framed] ∨
      ts = [Token.framed, Token.center] ∨ ts = [Token.right, Token.framed] ∨
      ts = [Token.framed, Token.right] := by
  rcases ts with _ | ⟨t1, _ | ⟨t2, _ | ⟨t3, r⟩⟩⟩
  · exact Or.inl rfl
  · cases t1 <;> first | exact Option.noConfusion h | decide
  · cases t1 <;> cases t2 <;> first | exact Option.noConfusion h | decide
  · cases t1 <;> cases t2 <;> exact Option.noConfusion h

/-- C1: for every alignment token a, the two-token sequences `a framed` and
`framed a` are both accepted and expand to the same configuration, the pair
(a, Framed). -/
theorem mermaid_framed_order_independent (a : Alignment) :
    mermaidResolve [a.token, Token.framed] = mermaidResolve [Token.framed, a.token] ∧
    mermaidResolve [a.token, Token.framed] = some (a, FrameStyle.framed) := by
  cases a <;> exact ⟨rfl, rfl⟩

/-- C2: contrary to the keyword documentation the crate itself carries, no arm of
`mermaid!` matches a modifier set containing `transparent`: both orders of
`{center, transparent}` and `transparent` alone fail to resolve, while the
empty modifier set resolves to the (Center, Transparent) default. -/
theorem mermaid_transparent_rejected :
    mermaidResolve [Token.center, Token.transparent] = none ∧
    mermaidResolve [Token.transparent, Token.center] = none ∧
    mermaidResolve [Token.transparent] = none ∧
    mermaidResolve [] = some (Alignment.center, FrameStyle.transparent) :=
  ⟨rfl, rfl, rfl, rfl⟩

/-- C3: every invalid modifier list fails to resolve: one containing two
alignment tokens, or two style tokens, or more than two tokens, or any
token outside the recognized vocabulary. -/
theorem mermaid_invalid_fails (ts : List Token)
    (h : 2 ≤ ts.countP Token.isAlignment ∨ 2 ≤ ts.countP Token.isStyle ∨
      2 < ts.length ∨ ts.all Token.inVocabulary = false) :
    mermaidResolve ts = none := by
  cases hr : mermaidResolve ts with
  | none => rfl
  | some c =>
    exfalso
    rcases mermaidResolve_eq_some_shapes ts c hr with
      rfl | rfl | rfl | rfl | rfl | rfl | rfl | rfl | rfl | rfl | rfl <;>
      revert h <;> decide

/-- Witness for C3 at the concrete invalid list `left right`. -/
theorem mermaid_invalid_fails_witness :
    (2 ≤ ([Token.left, Token.right] : List Token).countP Token.isAlignment ∨
      2 ≤ ([Token.left, Token.right] : List Token).countP Token.isStyle ∨
      2 < ([Token.left, Token.right] : List Token).length ∨
      ([Token.left, Token.right] : List Token).all Token.inVocabulary = false) ∧
    mermaidResolve [Token.left, Token.right] = none :=
  ⟨Or.inl (by decide), mermaid_invalid_fails [Token.left, Token.right] (Or.inl (by decide))⟩

/-- C4: the empty modifier set resolves to the default configuration
(Center, Transparent), and `mermaid!` with no modifiers expands exactly as
the center plus transparent configuration does. -/
theorem mermaid_default_config (content : String) :
    mermaidResolve [] = some (Alignment.center, FrameStyle.transparent) ∧
    mermaid content [] = some (mermaidInner Alignment.center FrameStyle.transparent content) ∧
    mermaid content [] = mermaid content [Token.center] :=
  ⟨rfl, rfl, rfl⟩

/-- C5: the single-token and listed two-token resolutions: an unaccompanied
alignment token leaves the style at the Transparent default, an
unaccompanied `framed` token leaves the alignment at the Center default,
and `right framed` resolves to (Right, Framed). -/
theorem mermaid_single_token_resolutions :
    mermaidResolve [Token.left] = some (Alignment.left, FrameStyle.transparent) ∧
    mermaidResolve [Token.right] = some (Alignment.right, FrameStyle.transparent) ∧
    mermaidResolve [Token.framed] = some (Alignment.center, FrameStyle.framed) ∧
    mermaidResolve [Token.right, Token.framed] = some (Alignment.right, FrameStyle.framed) ∧
    (∀ a : Alignment, mermaidResolve [a.token] = some (a, FrameStyle.transparent)) := by
  refine ⟨rfl, rfl, rfl, rfl, ?_⟩
  intro a
  cases a <;> rfl

/-- Splitting the literal that closes the style attribute and opens the
content line. -/
theorem dataSplitNl : ("\">\n" : String).data = ("\">" : String).data ++ ("\n" : String).data := rfl

/-- The character data of a newline literal. -/
theorem dataNl : ("\n" : String).data = ['\n'] := rfl

/-- The character data of the empty string. -/
theorem dataEmpty : ("" : String).data = [] := rfl

/-- A prefix of `x ++ c :: y` that avoids the character `c` is a prefix of
`x`. -/
theorem prefix_drop_last {p x y : List Char} {c : Char} (hc : c ∉ p)
    (h : p <+: x ++ c :: y) : p <+: x := by
  rcases le_or_lt p.length x.length with hl | hl
  · exact List.prefix_of_prefix_length_le h (List.prefix_append x (c :: y)) hl
  · exfalso
    have hx : x ++ [c] <+: x ++ c :: y := ⟨y, by simp⟩
    have hcp : x ++ [c] <+: p := by
      refine List.prefix_of_prefix_length_le hx h ?_
      simp only [List.length_append, List.length_cons, List.length_nil]
      omega
    exact hc (hcp.subset (by simp))

/-- An occurrence of a pattern avoiding `c` inside `x ++ c :: y` lies
entirely inside `x` or entirely inside `y`. -/
theorem infix_split_at_char {p y : List Char} {c : Char} (hc : c ∉ p) :
    ∀ {x : List Char}, p <:+: x ++ c :: y → p <:+: x ∨ p <:+: y := by
  intro x
  induction x with
  | nil =>
    intro h
    rcases List.infix_cons_iff.mp h with hp | hi
    · have h0 : p <+: ([] : List Char) := @prefix_drop_last p [] y c hc hp
      have h1 : p = [] := List.prefix_nil.mp h0
      subst h1
      exact Or.inr (by simp)
    · exact Or.inr hi
  | cons a x' ih =>
    intro h
    rcases List.infix_cons_iff.mp h with hp | hi
    · rcases @prefix_drop_last p (a :: x') y c hc hp with ⟨t, ht⟩
      exact Or.inl ⟨[], t, by simpa using ht⟩
    · rcases ih hi with h1 | h1
      · exact Or.inl (List.infix_cons h1)
      · exact Or.inr h1

/-- C6: the rendered output is exactly the opening container marker, a
newline, the verbatim diagram source, a newline, and the closing marker
followed by the bootstrap fragment; in particular the source bytes occur
contiguously and unmodified in the output. -/
theorem mermaid_source_roundtrip (a : Alignment) (f : FrameStyle) (s : String) :
    mermaidInner a f s =
      ("<pre class=\"mermaid\" style=\"text-align:" ++ a.name ++ ";" ++ mermaidBackground f ++ "\">")
        ++ "\n" ++ s ++ "\n" ++ ("</pre>" ++ bootstrapFragment) ∧
    s.data <:+: (mermaidInner a f s).data := by
  constructor
  · apply String.ext
    simp [mermaidInner, String.data_append, dataSplitNl, List.append_assoc]
  · refine ⟨("<pre class=\"mermaid\" style=\"text-align:" ++ a.name ++ ";"
        ++ mermaidBackground f ++ "\">\n").data,
      ("\n" ++ "</pre>" ++ bootstrapFragment : String).data, ?_⟩
    simp [mermaidInner, String.data_append, List.append_assoc]

/-- C7: the output of the transparent configuration contains the background
transparency declaration; the framed style fragment is the empty string,
and the output of the framed configuration contains the word `background` only
where the diagram source itself contains it. -/
theorem mermaid_background_correct :
    (∀ (a : Alignment) (s : String), ∃ pre post,
        mermaidInner a FrameStyle.transparent s = pre ++ "background: transparent;" ++ post) ∧
    mermaidBackground FrameStyle.framed = "" ∧
    (∀ (a : Alignment) (s : String),
        ("background" : String).data <:+: (mermaidInner a FrameStyle.framed s).data →
        ("background" : String).data <:+: s.data) := by
  refine ⟨?_, rfl, ?_⟩
  · intro a s
    refine ⟨"<pre class=\"mermaid\" style=\"text-align:" ++ a.name ++ ";",
      "\">\n" ++ s ++ "\n" ++ "</pre>" ++ bootstrapFragment, ?_⟩
    apply String.ext
    simp [mermaidInner, mermaidBackground, String.data_append, List.append_assoc]
  · intro a s h
    have hc : ('\n' : Char) ∉ ("background" : String).data := by decide
    have hdata : (mermaidInner a FrameStyle.framed s).data =
        ("<pre class=\"mermaid\" style=\"text-align:" ++ a.name ++ ";" ++ "\">").data
          ++ '\n' :: (s.data ++ '\n' :: (("</pre>" : String) ++ bootstrapFragment).data) := by
      simp [mermaidInner, mermaidBackground, String.data_append, dataSplitNl, dataNl,
        dataEmpty, List.append_assoc]
    rw [hdata] at h
    rcases infix_split_at_char hc h with h1 | h2
    · exfalso
      revert h1
      cases a <;> decide
    · rcases infix_split_at_char hc h2 with h3 | h4
      · exact h3
      · exact absurd h4 (by decide)

/-- Witness for C7 at a source string that itself contains the word
`background`. -/
theorem mermaid_background_correct_witness :
    ("background" : String).data <:+: ("background" : String).data :=
  mermaid_background_correct.2.2 Alignment.left "background" (by decide)

/-- C8: every output opens with the alignment declaration carrying exactly
the lowercase name of the configured alignment, and the three names are
pairwise distinct, so neither of the other two names can occupy that
position. -/
theorem mermaid_alignment_declaration :
    (∀ (a : Alignment) (f : FrameStyle) (s : String), ∃ post,
        mermaidInner a f s =
          "<pre class=\"mermaid\" style=\"text-align:" ++ a.name ++ ";" ++ post) ∧
    Alignment.name Alignment.left = "left" ∧
    Alignment.name Alignment.right = "right" ∧
    Alignment.name Alignment.center = "center" ∧
    (∀ a b : Alignment, a.name = b.name → a = b) := by
  refine ⟨?_, rfl, rfl, rfl, ?_⟩
  · intro a f s
    refine ⟨mermaidBackground f ++ "\">\n" ++ s ++ "\n" ++ "</pre>" ++ bootstrapFragment, ?_⟩
    apply String.ext
    simp [mermaidInner, String.data_append, List.append_assoc]
  · intro a b h
    cases a <;> cases b <;> first | rfl | exact absurd h (by decide)

/-- Witness for C8: the name map is injective at a concrete pair. -/
theorem mermaid_alignment_declaration_witness : Alignment.center = Alignment.center :=
  mermaid_alignment_declaration.2.2.2.2 Alignment.center Alignment.center rfl

/-- C9: rendering is deterministic (equal inputs give byte-identical
output), and every output ends with the bootstrap fragment, one fixed
literal string independent of the configuration. -/
theorem mermaid_render_deterministic :
    (∀ (a a' : Alignment) (f f' : FrameStyle) (s s' : String),
        a = a' → f = f' → s = s' → mermaidInner a f s = mermaidInner a' f' s') ∧
    (∀ (a : Alignment) (f : FrameStyle) (s : String), ∃ pre,
        mermaidInner a f s = pre ++ bootstrapFragment) ∧
    bootstrapFragment =
      "<script type=\"module\">import mermaid from \"https://cdn.jsdelivr.net/npm/mermaid@10/dist/mermaid.esm.min.mjs\";var doc_theme = localStorage.getItem(\"rustdoc-theme\");if (doc_theme === \"dark\" || doc_theme === \"ayu\") mermaid.initialize(\x7btheme: \"dark\"\x7d);</script>" := by
  refine ⟨?_, ?_, rfl⟩
  · intro a a' f f' s s' h1 h2 h3
    subst h1
    subst h2
    subst h3
    rfl
  · intro a f s
    exact ⟨"<pre class=\"mermaid\" style=\"text-align:" ++ a.name ++ ";"
      ++ mermaidBackground f ++ "\">\n" ++ s ++ "\n" ++ "</pre>", rfl⟩

/-- Witness for C9 at a concrete configuration and source. -/
theorem mermaid_render_deterministic_witness :
    mermaidInner Alignment.right FrameStyle.framed "sequenceDiagram" =
      mermaidInner Alignment.right FrameStyle.framed "sequenceDiagram" :=
  mermaid_render_deterministic.1 Alignment.right Alignment.right FrameStyle.framed
    FrameStyle.framed "sequenceDiagram" "sequenceDiagram" rfl rfl rfl

/-- C10: the bootstrap fragment reads exactly the persisted key
`rustdoc-theme` (the text around the one storage read contains no other
storage read), and its dark-theme condition holds exactly for the two
values `dark` and `ayu`. -/
theorem mermaid_bootstrap_theme_check :
    bootstrapFragment =
      "<script type=\"module\">import mermaid from \"https://cdn.jsdelivr.net/npm/mermaid@10/dist/mermaid.esm.min.mjs\";var doc_theme = "
        ++ "localStorage.getItem(\"rustdoc-theme\")"
        ++ ";if (doc_theme === \"dark\" || doc_theme === \"ayu\") mermaid.initialize(\x7btheme: \"dark\"\x7d);</script>" ∧
    ¬(("localStorage" : String).data <:+:
        ("<script type=\"module\">import mermaid from \"https://cdn.jsdelivr.net/npm/mermaid@10/dist/mermaid.esm.min.mjs\";var doc_theme = " : String).data) ∧
    ¬(("localStorage" : String).data <:+:
        (";if (doc_theme === \"dark\" || doc_theme === \"ayu\") mermaid.initialize(\x7btheme: \"dark\"\x7d);</script>" : String).data) ∧
    (∀ t : String, darkThemeCheck t = true ↔ (t = "dark" ∨ t = "ayu")) := by
  refine ⟨rfl, by decide, by decide, ?_⟩
  intro t
  simp [darkThemeCheck]

/-- Witness for C10: the value `ayu` triggers the dark-theme branch. -/
theorem mermaid_bootstrap_theme_check_witness : darkThemeCheck "ayu" = true :=
  (mermaid_bootstrap_theme_check.2.2.2 "ayu").mpr (Or.inr rfl)

end SimpleMermaid
